import Mathlib

/-!
Verification development for the pantry-wizard backend
(`src/backend/app`): a shallow embedding in Lean 4 of the recipe
generation pipeline (`recipe_ai.py`), the calorie utilities
(`utils.py`) and the router operations (`users.py`, `pantry.py`,
`recipes.py`, `history.py`), together with theorems settling the
behavioural claims about them.

Modelling conventions:
* Python floats are modelled as exact rationals (`ℚ`); machine-level
  rounding of IEEE doubles is below the precision of every property
  treated here.
* `datetime` values are modelled as seconds since the epoch (`Nat`).
* Database tables are modelled as Lean lists of row structures; a
  query returning the first match is `List.find?`, an `ORDER BY x
  DESC` is `List.mergeSort` with the corresponding comparator.
* Fallible code returns `Except`/`Option`; a raised exception that
  propagates out of a routine is an `Except.error`.
* All recursion is structural (on explicit fuel where the Python uses
  unbounded loops), so every definition evaluates by `rfl`/`decide`
  on concrete inputs.
-/

/-- Python `str.lower()` for the strings this codebase compares
(ASCII case-mapping; Unicode full case-mapping differs only
off-ASCII, which no modelled comparison exercises). -/
def pyLower (s : String) : String := String.mk (s.data.map Char.toLower)

/-- Python's `l[-n:]`: the last `n` elements of a list (all of it when
shorter). -/
def lastN (n : Nat) (l : List α) : List α := l.drop (l.length - n)

/-- Python's `needle in hay` on strings: substring containment. -/
def strContains (hay needle : String) : Bool :=
  (List.range (hay.data.length + 1)).any fun i => needle.data.isPrefixOf (hay.data.drop i)

/-! ## difflib.SequenceMatcher (Python standard library)

`ensure_non_repetitive` in `recipe_ai.py` calls
`SequenceMatcher(None, a, b).ratio()`.  The definitions below are a
direct translation of CPython's `difflib` for the `isjunk=None` case:
`b2j` maps an element to its (ascending) list of positions in `b`,
withholding "popular" elements when `autojunk` applies
(`len(b) >= 200` and the element occurs more than `len(b)//100 + 1`
times); `find_longest_match` runs the dynamic-programming row loop
with the same iteration order and strict-improvement tie-breaking,
then extends the best block left and right (the junk set is empty for
`isjunk=None`, so only the first two extension loops of CPython can
fire); the total of the matching-block sizes drives
`ratio() = 2*M/T` with `T = len(a)+len(b)` (and `1.0` when `T = 0`). -/

/-- All positions of `c` in `b`, ascending: `b2j` before junk purging. -/
def b2jIndices (b : List Char) (c : Char) : List Nat :=
  (List.range b.length).filter fun j => b.getD j ' ' == c

/-- CPython autojunk: with `len(b) >= 200`, elements occurring more than
`len(b) // 100 + 1` times are dropped from `b2j`. -/
def isPopular (b : List Char) (c : Char) : Bool :=
  decide (200 ≤ b.length) && decide (b.length / 100 + 1 < (b2jIndices b c).length)

/-- `b2j` as used by `find_longest_match` (junk set empty, popular purged). -/
def b2jMap (b : List Char) (c : Char) : List Nat :=
  if isPopular b c then [] else b2jIndices b c

/-- One iteration of the outer `for i in range(alo, ahi)` loop of
`find_longest_match`: builds `newj2len` from the previous row `j2len`
and updates the running best block `(besti, bestj, bestsize)` exactly
when the new run is strictly longer. -/
def flmRow (a : List Char) (b2jf : Char → List Nat) (blo bhi : Nat)
    (j2len : Nat → Nat) (best : Nat × Nat × Nat) (i : Nat) :
    (Nat → Nat) × (Nat × Nat × Nat) :=
  let js := (b2jf (a.getD i ' ')).filter fun j => decide (blo ≤ j) && decide (j < bhi)
  js.foldl
    (fun st j =>
      let k := (if j = 0 then 0 else j2len (j - 1)) + 1
      ((fun x => if x = j then k else st.1 x),
        if st.2.2.2 < k then (i + 1 - k, j + 1 - k, k) else st.2))
    ((fun _ => 0), best)

/-- First extension loop pair of `find_longest_match` (leftwards):
while `besti > alo and bestj > blo and a[besti-1] == b[bestj-1]`, grow
the block.  Fuel-structural; called with fuel `besti`, which bounds the
number of decrements. -/
def extendLeft (a b : List Char) (alo blo : Nat) :
    Nat → Nat → Nat → Nat → Nat × Nat × Nat
  | 0, bi, bj, bs => (bi, bj, bs)
  | fuel + 1, bi, bj, bs =>
    if decide (alo < bi) && decide (blo < bj) &&
        (a.getD (bi - 1) ' ' == b.getD (bj - 1) ' ') then
      extendLeft a b alo blo fuel (bi - 1) (bj - 1) (bs + 1)
    else (bi, bj, bs)

/-- Rightwards extension loop of `find_longest_match`: while
`besti+bestsize < ahi and bestj+bestsize < bhi and a[..] == b[..]`,
grow the block.  Called with fuel `ahi`. -/
def extendRight (a b : List Char) (ahi bhi bi bj : Nat) :
    Nat → Nat → Nat
  | 0, bs => bs
  | fuel + 1, bs =>
    if decide (bi + bs < ahi) && decide (bj + bs < bhi) &&
        (a.getD (bi + bs) ' ' == b.getD (bj + bs) ' ') then
      extendRight a b ahi bhi bi bj fuel (bs + 1)
    else bs

/-- `SequenceMatcher.find_longest_match(alo, ahi, blo, bhi)` for the
`isjunk=None` case. -/
def findLongestMatch (a b : List Char) (b2jf : Char → List Nat)
    (alo ahi blo bhi : Nat) : Nat × Nat × Nat :=
  let st := (List.range' alo (ahi - alo)).foldl
    (fun (st : (Nat → Nat) × (Nat × Nat × Nat)) i => flmRow a b2jf blo bhi st.1 st.2 i)
    ((fun _ => 0), (alo, blo, 0))
  let (bi, bj, bs) := st.2
  let (bi, bj, bs) := extendLeft a b alo blo bi bi bj bs
  let bs := extendRight a b ahi bhi bi bj ahi bs
  (bi, bj, bs)

/-- Total size of the matching blocks of `get_matching_blocks` (the
quantity summed by `ratio`): recursively split around the longest
match.  Fuel-structural; fuel `a.length + 1` suffices since each
recursive call strictly shrinks `ahi - alo`. -/
def matchesTotalAux (a b : List Char) (b2jf : Char → List Nat) :
    Nat → Nat → Nat → Nat → Nat → Nat
  | 0, _, _, _, _ => 0
  | fuel + 1, alo, ahi, blo, bhi =>
    let (i, j, k) := findLongestMatch a b b2jf alo ahi blo bhi
    if k = 0 then 0
    else
      matchesTotalAux a b b2jf fuel alo i blo j + k +
        matchesTotalAux a b b2jf fuel (i + k) ahi (j + k) bhi

/-- `sum(block.size for block in SequenceMatcher(None, a, b).get_matching_blocks())`. -/
def matchesTotal (a b : String) : Nat :=
  matchesTotalAux a.data b.data (b2jMap b.data) (a.data.length + 1)
    0 a.data.length 0 b.data.length

/-- `SequenceMatcher(None, a, b).ratio()`, as an exact rational:
`2*M/T`, or `1` when both strings are empty. -/
def ratioQ (a b : String) : ℚ :=
  let M := matchesTotal a b
  let T := a.length + b.length
  if T = 0 then 1 else 2 * (M : ℚ) / (T : ℚ)

/-- The comparison `SequenceMatcher(None, a, b).ratio() > 0.7` of
`ensure_non_repetitive`, computed over `Nat` by cross-multiplication
(`2*M/T > 7/10  ↔  20*M > 7*T`, and the empty/empty case has ratio 1).
`ratioQ_gt_iff` below proves this equals the rational comparison. -/
def similarityAbove7Tenths (a b : String) : Bool :=
  let M := matchesTotal a b
  let T := a.length + b.length
  decide (T = 0) || decide (7 * T < 20 * M)

theorem ratioQ_gt_iff (a b : String) :
    (7 : ℚ) / 10 < ratioQ a b ↔ similarityAbove7Tenths a b = true := by
  unfold ratioQ similarityAbove7Tenths
  rcases Nat.eq_zero_or_pos (a.length + b.length) with h | h
  · rw [if_pos h]
    constructor
    · intro _
      simp [h]
    · intro _
      norm_num
  · have hne : a.length + b.length ≠ 0 := Nat.pos_iff_ne_zero.mp h
    rw [if_neg hne]
    simp only [Bool.or_eq_true, decide_eq_true_eq, or_iff_right hne]
    have hT : (0 : ℚ) < ((a.length + b.length : Nat) : ℚ) := by exact_mod_cast h
    rw [div_lt_div_iff₀ (by norm_num) hT]
    constructor
    · intro hlt
      have h2 : (7 : ℚ) * (a.length + b.length) < 20 * (matchesTotal a b) := by
        push_cast at hlt ⊢
        linarith
      exact_mod_cast h2
    · intro hlt
      have h2 : (7 : ℚ) * (a.length + b.length) < 20 * (matchesTotal a b) := by
        exact_mod_cast hlt
      push_cast at h2 ⊢
      linarith

/-! ## Python/JSON values

The recipe pipeline passes parsed JSON around as Python dicts.  `PyVal`
is the value universe: JSON values / the Python objects `json.loads`
produces.  Numbers are exact rationals (Python ints and floats are not
distinguished; every number this codebase serializes is an integer). -/

inductive PyVal where
  | null
  | bool (b : Bool)
  | num (q : ℚ)
  | str (s : String)
  | list (xs : List PyVal)
  | dict (kvs : List (String × PyVal))

/-- Python truthiness (`not x` tests): `None`, `False`, `0`, `""`, `[]`,
`{}` are falsy.  (`q.num ≠ 0` is `q ≠ 0`, stated on the numerator so it
evaluates by kernel reduction.) -/
def pyTruthy : PyVal → Bool
  | .null => false
  | .bool b => b
  | .num q => decide (q.num ≠ 0)
  | .str s => !s.isEmpty
  | .list xs => !xs.isEmpty
  | .dict kvs => !kvs.isEmpty

/-- Truthiness of an optional value (a Python variable that may hold
`None` from a `.get` with no default). -/
def optTruthy : Option PyVal → Bool
  | none => false
  | some v => pyTruthy v

/-- Python `d.get(key)` (first binding wins, as in a dict). -/
def pyGet? (v : PyVal) (key : String) : Option PyVal :=
  match v with
  | .dict kvs => (kvs.find? fun kv => kv.1 == key).map (·.2)
  | _ => none

/-- Python `key in d` for a dict. -/
def pyHasKey (v : PyVal) (key : String) : Bool := (pyGet? v key).isSome

/-- Python `d.get(key, default)`. -/
def pyGetD (v : PyVal) (key : String) (d : PyVal) : PyVal := (pyGet? v key).getD d

/-- Python `d[key] = val`: replace in place (keeping the key's
position), appending when absent. -/
def pySet : List (String × PyVal) → String → PyVal → List (String × PyVal)
  | [], k, v => [(k, v)]
  | (k', v') :: rest, k, v =>
    if k' == k then (k, v) :: rest else (k', v') :: pySet rest k v

/-- String escaping of `json.dumps` for the characters this codebase
serializes (printable ASCII plus the common escapes). -/
def jsonEscapeChar (c : Char) : String :=
  if c == '"' then "\\\"" else if c == '\\' then "\\\\"
  else if c == '\n' then "\\n" else if c == '\t' then "\\t"
  else if c == '\r' then "\\r" else String.mk [c]

def jsonEscape (s : String) : String := String.join (s.data.map jsonEscapeChar)

mutual
/-- `json.dumps` with CPython's default separators `", "` and `": "`.
Integer-valued numbers are rendered in Python-int form, which is how
every number in this codebase is serialized; other rationals get a
definite (non-JSON-roundtripping) rendering that no code path here
produces. -/
def jsonDumps : PyVal → String
  | .null => "null"
  | .bool true => "true"
  | .bool false => "false"
  | .num q => if q.den = 1 then toString q.num else toString q.num ++ "e-of-" ++ toString q.den
  | .str s => "\"" ++ jsonEscape s ++ "\""
  | .list xs => "[" ++ jsonDumpsArr xs ++ "]"
  | .dict kvs => "\x7b" ++ jsonDumpsObj kvs ++ "\x7d"

def jsonDumpsArr : List PyVal → String
  | [] => ""
  | [x] => jsonDumps x
  | x :: y :: rest => jsonDumps x ++ ", " ++ jsonDumpsArr (y :: rest)

def jsonDumpsObj : List (String × PyVal) → String
  | [] => ""
  | [(k, v)] => "\"" ++ jsonEscape k ++ "\": " ++ jsonDumps v
  | (k, v) :: kv :: rest =>
    "\"" ++ jsonEscape k ++ "\": " ++ jsonDumps v ++ ", " ++ jsonDumpsObj (kv :: rest)
end

/-! ### json.loads

A recursive-descent parser for the JSON accepted by `json.loads`,
structural on explicit fuel so concrete parses evaluate by `rfl`.
(It accepts a harmless superset of numeric literals — it does not
reject leading zeros — which no input in this development exercises.) -/

def skipWs : List Char → List Char
  | c :: rest =>
    if c == ' ' || c == '\t' || c == '\n' || c == '\r' then skipWs rest else c :: rest
  | [] => []

def digitVal (c : Char) : Option Nat :=
  if '0' ≤ c ∧ c ≤ '9' then some (c.toNat - 48) else none

def parseDigitsAux : List Char → Nat → Nat → Nat × Nat × List Char
  | c :: rest, v, n =>
    match digitVal c with
    | some d => parseDigitsAux rest (v * 10 + d) (n + 1)
    | none => (v, n, c :: rest)
  | [], v, n => (v, n, [])

/-- Parse a JSON number into an exact rational.  The plain-integer
path builds the rational as a bare cast (no `Rat` arithmetic), so
integer-valued parses reduce definitionally. -/
def parseNumber (s : List Char) : Option (ℚ × List Char) :=
  let (neg, s1) := match s with
    | '-' :: r => (true, r)
    | _ => (false, s)
  let (ip, ic, s2) := parseDigitsAux s1 0 0
  if ic = 0 then none
  else if (match s2 with
      | '.' :: _ => false
      | 'e' :: _ => false
      | 'E' :: _ => false
      | _ => true) then
    some ((if neg then -(ip : ℚ) else (ip : ℚ)), s2)
  else
    let (fp, fc, s3) := match s2 with
      | '.' :: r => parseDigitsAux r 0 0
      | _ => (0, 0, s2)
    if s2 ≠ s3 ∧ fc = 0 then none
    else
      let (eneg, epart) := match s3 with
        | 'e' :: '-' :: r => (true, some r)
        | 'E' :: '-' :: r => (true, some r)
        | 'e' :: '+' :: r => (false, some r)
        | 'E' :: '+' :: r => (false, some r)
        | 'e' :: r => (false, some r)
        | 'E' :: r => (false, some r)
        | _ => (false, none)
      let (ev, ec, s4) := match epart with
        | some r => parseDigitsAux r 0 0
        | none => (0, 1, s3)
      if ec = 0 then none
      else
        let base : ℚ := (ip : ℚ) + (fp : ℚ) / ((10 : ℚ) ^ fc)
        let scaled : ℚ := if eneg then base / (10 : ℚ) ^ ev else base * (10 : ℚ) ^ ev
        some ((if neg then -scaled else scaled), s4)

/-- Parse the remainder of a JSON string (after the opening quote). -/
def parseStrAux : Nat → List Char → List Char → Option (String × List Char)
  | 0, _, _ => none
  | fuel + 1, acc, s =>
    match s with
    | '"' :: rest => some (String.mk acc.reverse, rest)
    | '\\' :: e :: rest =>
      if e == '"' then parseStrAux fuel ('"' :: acc) rest
      else if e == '\\' then parseStrAux fuel ('\\' :: acc) rest
      else if e == '/' then parseStrAux fuel ('/' :: acc) rest
      else if e == 'n' then parseStrAux fuel ('\n' :: acc) rest
      else if e == 't' then parseStrAux fuel ('\t' :: acc) rest
      else if e == 'r' then parseStrAux fuel ('\r' :: acc) rest
      else if e == 'b' then parseStrAux fuel ((Char.ofNat 8) :: acc) rest
      else if e == 'f' then parseStrAux fuel ((Char.ofNat 12) :: acc) rest
      else none
    | c :: rest => if c.toNat < 32 then none else parseStrAux fuel (c :: acc) rest
    | [] => none

/-- Parse the items of a JSON array after `[` (nonempty case), given a
parser `pv` for element values. -/
def parseArrItems (pv : List Char → Option (PyVal × List Char)) :
    Nat → List Char → List PyVal → Option (List PyVal × List Char)
  | 0, _, _ => none
  | fuel + 1, s, acc =>
    match pv s with
    | none => none
    | some (v, rest) =>
      match skipWs rest with
      | ',' :: rest2 => parseArrItems pv fuel rest2 (v :: acc)
      | ']' :: rest2 => some ((v :: acc).reverse, rest2)
      | _ => none

/-- Parse the members of a JSON object after `{` (nonempty case). -/
def parseObjItems (pv : List Char → Option (PyVal × List Char)) :
    Nat → List Char → List (String × PyVal) → Option (List (String × PyVal) × List Char)
  | 0, _, _ => none
  | fuel + 1, s, acc =>
    match skipWs s with
    | '"' :: rest =>
      match parseStrAux (rest.length + 1) [] rest with
      | none => none
      | some (k, rest2) =>
        match skipWs rest2 with
        | ':' :: rest3 =>
          match pv rest3 with
          | none => none
          | some (v, rest4) =>
            match skipWs rest4 with
            | ',' :: rest5 => parseObjItems pv fuel rest5 ((k, v) :: acc)
            | '\x7d' :: rest5 => some (((k, v) :: acc).reverse, rest5)
            | _ => none
        | _ => none
    | _ => none

/-- Parse one JSON value (fuel-structural). -/
def parseValue : Nat → List Char → Option (PyVal × List Char)
  | 0, _ => none
  | fuel + 1, s =>
    match skipWs s with
    | 'n' :: 'u' :: 'l' :: 'l' :: rest => some (.null, rest)
    | 't' :: 'r' :: 'u' :: 'e' :: rest => some (.bool true, rest)
    | 'f' :: 'a' :: 'l' :: 's' :: 'e' :: rest => some (.bool false, rest)
    | '"' :: rest =>
      match parseStrAux (rest.length + 1) [] rest with
      | some (str, rest2) => some (.str str, rest2)
      | none => none
    | '[' :: rest =>
      match skipWs rest with
      | ']' :: rest2 => some (.list [], rest2)
      | _ =>
        match parseArrItems (parseValue fuel) fuel rest [] with
        | some (xs, rest2) => some (.list xs, rest2)
        | none => none
    | '\x7b' :: rest =>
      match skipWs rest with
      | '\x7d' :: rest2 => some (.dict [], rest2)
      | _ =>
        match parseObjItems (parseValue fuel) fuel rest [] with
        | some (kvs, rest2) => some (.dict kvs, rest2)
        | none => none
    | rest =>
      match parseNumber rest with
      | some (q, rest2) => some (.num q, rest2)
      | none => none

/-- `json.loads`: parse a complete JSON document (trailing whitespace
allowed, anything else rejected). -/
def jsonLoads (s : String) : Option PyVal :=
  match parseValue (s.data.length + 1) s.data with
  | some (v, rest) => if (skipWs rest).isEmpty then some v else none
  | none => none

/-! ## Data model (`models.py`)

Rows of the four tables, with datetimes as epoch seconds and floats as
rationals.  Row ids are carried explicitly. -/

structure UserRow where
  id : Nat
  name : String
  email : String
  password_hash : String
  height_cm : Option ℚ := none
  weight_kg : Option ℚ := none
  age : Option Nat := none
  diet_type : Option String := none
  allergies : Option String := none
  goal : Option String := none
  created_at : Nat := 0
deriving Repr, DecidableEq

structure PantryRow where
  id : Nat
  user_id : Nat
  name : String
  quantity : ℚ
  unit : String
  created_at : Nat := 0
deriving Repr, DecidableEq

structure HistRow where
  id : Nat
  user_id : Nat
  recipe_name : String
  recipe_json : String
  calories : Option ℚ := none
  created_at : Nat
deriving Repr, DecidableEq

structure SuggRow where
  id : Nat
  user_id : Nat
  recipe_id : Option Nat := none
  recipe_json : String
  suggested_at : Nat
deriving Repr, DecidableEq

/-! ## utils.py -/

/-- Banker's rounding to an integer: Python's `round()` on the exact
value (floats are modelled as exact rationals). -/
def roundHalfEven (q : ℚ) : ℤ :=
  let f := ⌊q⌋
  if q - f < 1 / 2 then f
  else if (1 : ℚ) / 2 < q - f then f + 1
  else if f % 2 = 0 then f else f + 1

/-- Python `round(x, 1)`. -/
def round1 (q : ℚ) : ℚ := (roundHalfEven (q * 10) : ℚ) / 10

/-- Python `round(x, 0)` (returns a float in Python; a rational here). -/
def round0 (q : ℚ) : ℚ := (roundHalfEven q : ℚ)

/-- `calculate_bmi` from `utils.py`. -/
def calculateBmi (height_cm weight_kg : ℚ) : ℚ :=
  if height_cm ≤ 0 ∨ weight_kg ≤ 0 then 0
  else round1 (weight_kg / (height_cm / 100) ^ 2)

/-- The `calorie_map` of `estimate_calories_from_ingredients`, in
source (insertion) order. -/
def calorieTable : List (String × ℚ) :=
  [("chicken", 165), ("beef", 250), ("pork", 242), ("fish", 206),
   ("rice", 130), ("pasta", 131), ("potato", 77), ("onion", 40),
   ("tomato", 18), ("carrot", 41), ("broccoli", 34), ("spinach", 23),
   ("egg", 70), ("cheese", 113), ("milk", 42), ("oil", 884),
   ("butter", 717)]

/-- The string content of a Python value expected to be a `str` (the
receivers of `.lower()` in this codebase); a non-string receiver
raises in Python and occurs on no code path modelled here. -/
def pyStrD : PyVal → String
  | .str s => s
  | _ => ""

/-- The element list of a Python value expected to be a `list`;
non-lists raise when iterated in Python and occur on no modelled
code path. -/
def pyListD : PyVal → List PyVal
  | .list xs => xs
  | _ => []

/-- `estimate_calories_from_ingredients` from `utils.py`: per
ingredient, the first `calorie_map` key occurring as a substring of
the lowercased name contributes `value * 0.5`; if nothing matched, the
total is `len(ingredients) * 50`; the result ix `round(total, 0)`. -/
def estimateCaloriesFromIngredients (ingredients : List PyVal) : ℚ :=
  let total := ingredients.foldl
    (fun acc ing =>
      let name := pyLower (pyStrD (pyGetD ing "name" (.str "")))
      match calorieTable.find? (fun kv => strContains name kv.1) with
      | some kv => acc + kv.2 * (1 / 2)
      | none => acc)
    0
  let total := if total = 0 then (ingredients.length : ℚ) * 50 else total
  round0 total

/-! ## recipe_ai.py -/

/-- `re.search(r'\x7b.*\x7d', text, re.DOTALL)`: with greedy `.*` under
DOTALL this matches from the first `{` to the last `}` (when the
latter comes after the former), else nothing. -/
def extractJson (t : String) : Option String :=
  match t.data.findIdx? (· == '\x7b'), t.data.reverse.findIdx? (· == '\x7d') with
  | some i, some k =>
    let j := t.data.length - 1 - k
    if i < j then some (String.mk ((t.data.drop i).take (j - i + 1))) else none
  | _, _ => none

/-- The `_fallback_recipe` literal shared by `OllamaLLMClient` and
`LocalLLMClient`, as the parsed dict. -/
def fallbackStirFryVal : PyVal := .dict
  [("name", .str "Simple Pantry Stir-Fry"),
   ("description", .str "A quick and healthy stir-fry using your available ingredients."),
   ("ingredients", .list [.dict [("name", .str "mixed vegetables"), ("amount", .str "2 cups")]]),
   ("steps", .list [.str "Heat oil in a pan",
                    .str "Add vegetables and stir-fry for 5 minutes",
                    .str "Season with salt and pepper",
                    .str "Serve hot"]),
   ("time_minutes", .num 15),
   ("difficulty", .str "easy"),
   ("calories", .num 200),
   ("macros", .dict [("protein_g", .num 10), ("carbs_g", .num 30), ("fat_g", .num 5)]),
   ("health_justification", .str "A balanced meal with vegetables providing essential nutrients.")]

/-- `json.dumps` of the Ollama/local fallback literal (the exact string
`_fallback_recipe` returns). -/
def fallbackStirFry : String :=
  "\x7b\"name\": \"Simple Pantry Stir-Fry\", \"description\": \"A quick and healthy stir-fry using your available ingredients.\", \"ingredients\": [\x7b\"name\": \"mixed vegetables\", \"amount\": \"2 cups\"\x7d], \"steps\": [\"Heat oil in a pan\", \"Add vegetables and stir-fry for 5 minutes\", \"Season with salt and pepper\", \"Serve hot\"], \"time_minutes\": 15, \"difficulty\": \"easy\", \"calories\": 200, \"macros\": \x7b\"protein_g\": 10, \"carbs_g\": 30, \"fat_g\": 5\x7d, \"health_justification\": \"A balanced meal with vegetables providing essential nutrients.\"\x7d"

/-- The `_fallback_recipe` literal of `APILLMClient`, as the parsed dict. -/
def healthyBowlVal : PyVal := .dict
  [("name", .str "Healthy Pantry Bowl"),
   ("description", .str "A nutritious bowl made from your available ingredients."),
   ("ingredients", .list [.dict [("name", .str "available ingredients"), ("amount", .str "as needed")]]),
   ("steps", .list [.str "Prepare your ingredients",
                    .str "Combine in a bowl",
                    .str "Season to taste",
                    .str "Enjoy!"]),
   ("time_minutes", .num 20),
   ("difficulty", .str "easy"),
   ("calories", .num 250),
   ("macros", .dict [("protein_g", .num 15), ("carbs_g", .num 35), ("fat_g", .num 8)]),
   ("health_justification", .str "A balanced meal using fresh ingredients from your pantry.")]

/-- `json.dumps` of the API-client fallback literal. -/
def healthyBowl : String :=
  "\x7b\"name\": \"Healthy Pantry Bowl\", \"description\": \"A nutritious bowl made from your available ingredients.\", \"ingredients\": [\x7b\"name\": \"available ingredients\", \"amount\": \"as needed\"\x7d], \"steps\": [\"Prepare your ingredients\", \"Combine in a bowl\", \"Season to taste\", \"Enjoy!\"], \"time_minutes\": 20, \"difficulty\": \"easy\", \"calories\": 250, \"macros\": \x7b\"protein_g\": 15, \"carbs_g\": 35, \"fat_g\": 8\x7d, \"health_justification\": \"A balanced meal using fresh ingredients from your pantry.\"\x7d"

/-- Outcome of the single network / in-process call a client variant
makes: `exc` stands for any exception raised inside the `try` block
(connection error, timeout, non-2xx status, JSON decode error, a
non-string reaching `re.search`, ...); `ok text` is the string that
reaches the regex-extraction step. -/
inductive BackendOutcome where
  | exc
  | ok (text : String)

/-- `OllamaLLMClient.generate_recipe`: on any exception return the
fallback literal; otherwise extract the `{...}` substring (or return
the raw text when there is none). -/
def ollamaGenerateRecipe (_prompt : String) (outcome : BackendOutcome) : String :=
  match outcome with
  | .exc => fallbackStirFry
  | .ok responseText =>
    match extractJson responseText with
    | some s => s
    | none => responseText

/-- `LocalLLMClient.generate_recipe`: with no loaded model (import or
load failure) return the fallback literal immediately; otherwise as
the Ollama client. -/
def localGenerateRecipe (modelLoaded : Bool) (_prompt : String) (outcome : BackendOutcome) : String :=
  if !modelLoaded then fallbackStirFry
  else
    match outcome with
    | .exc => fallbackStirFry
    | .ok response =>
      match extractJson response with
      | some s => s
      | none => response

/-- `APILLMClient.generate_recipe`: with `LLM_API_URL`/`LLM_API_KEY`
unset return the fallback literal; on any exception likewise;
otherwise extract from the content string. -/
def apiGenerateRecipe (configured : Bool) (_prompt : String) (outcome : BackendOutcome) : String :=
  if !configured then healthyBowl
  else
    match outcome with
    | .exc => healthyBowl
    | .ok content =>
      match extractJson content with
      | some s => s
      | none => content

/-- The `required_fields` list of `parse_recipe_response`. -/
def requiredFields : List String :=
  ["name", "description", "ingredients", "steps", "time_minutes",
   "difficulty", "calories", "macros"]

/-- The default macros dict substituted by `parse_recipe_response`. -/
def defaultMacros : PyVal :=
  .dict [("protein_g", .num 0), ("carbs_g", .num 0), ("fat_g", .num 0)]

/-- `parse_recipe_response`: extract a JSON substring (else parse the
whole text), require the eight fields, and replace a non-dict
`macros` value with zeros.  A non-dict parse result is an error: in
Python every such value raises (`in` on a number raises immediately;
for a string or list the required-fields test may pass but the
`recipe_data["macros"]` subscript/assignment then raises), and the
function re-raises everything it catches. -/
def parseRecipeResponse (responseText : String) : Except String PyVal :=
  let parsed : Option PyVal :=
    match extractJson responseText with
    | some s => jsonLoads s
    | none => jsonLoads responseText
  match parsed with
  | none => .error "Invalid JSON response"
  | some (.dict kvs) =>
    if requiredFields.all (fun f => pyHasKey (.dict kvs) f) then
      match pyGetD (.dict kvs) "macros" .null with
      | .dict _ => .ok (.dict kvs)
      | _ => .ok (.dict (pySet kvs "macros" defaultMacros))
    else .error "Missing required field"
  | some _ => .error "Error parsing recipe"

/-- Decimal rendering of a rational's fractional part (fuel-bounded;
every Python float this codebase interpolates terminates far within
17 digits). -/
def fracDigits : Nat → ℚ → List Char
  | 0, _ => []
  | fuel + 1, r =>
    if r = 0 then []
    else
      let r10 := r * 10
      let d := ⌊r10⌋
      Char.ofNat (48 + d.toNat) :: fracDigits fuel (r10 - d)

/-- How an f-string renders a Python float, for the values this
codebase interpolates (`repr` of a terminating decimal; integral
floats print with a trailing `.0`). -/
def pyFloatRepr (q : ℚ) : String :=
  let sign := if q < 0 then "-" else ""
  let aq := |q|
  let ip := (⌊aq⌋).toNat
  let ds := fracDigits 17 (aq - (⌊aq⌋ : ℚ))
  sign ++ toString ip ++ "." ++ (if ds.isEmpty then "0" else String.mk ds)

/-- Python `x or default` rendered into an f-string, `x` an optional
int (`None` and `0` both fall back to the default). -/
def pyOrNat (v : Option Nat) (d : String) : String :=
  match v with
  | some n => if n = 0 then d else toString n
  | none => d

/-- Python `x or default` for an optional float. -/
def pyOrQ (v : Option ℚ) (d : String) : String :=
  match v with
  | some q => if q = 0 then d else pyFloatRepr q
  | none => d

/-- Python `x or default` for an optional string. -/
def pyOrStr (v : Option String) (d : String) : String :=
  match v with
  | some s => if s.isEmpty then d else s
  | none => d

/-- Truthiness of an optional float (`if user.height_cm and ...`). -/
def optQTruthy (v : Option ℚ) : Bool :=
  match v with
  | some q => decide (q ≠ 0)
  | none => false

/-- `build_recipe_prompt` from `recipe_ai.py`: BMI when height and
weight are truthy, the pantry listing (or the staples sentence when
empty), the recent titles (or "None"), the preferences with their
defaults, interpolated into the fixed template. -/
def buildRecipePrompt (user : UserRow) (pantryItems : List PantryRow)
    (preferences : Option (List (String × String))) (recentTitles : List String) : String :=
  let bmi : ℚ :=
    if optQTruthy user.height_cm && optQTruthy user.weight_kg then
      calculateBmi (user.height_cm.getD 0) (user.weight_kg.getD 0)
    else 0
  let pantryList := ", ".intercalate (pantryItems.map fun item =>
    item.name ++ " (" ++ pyFloatRepr item.quantity ++ " " ++ item.unit ++ ")")
  let pantryList :=
    if pantryList.isEmpty then "No specific ingredients listed (use common pantry staples)"
    else pantryList
  let recentTitlesStr :=
    if recentTitles.isEmpty then "None" else ", ".intercalate recentTitles
  let cuisine := match preferences with
    | some p => (((p.find? fun kv => kv.1 == "cuisine").map (·.2)).getD "any")
    | none => "any"
  let spiceLevel := match preferences with
    | some p => (((p.find? fun kv => kv.1 == "spice_level").map (·.2)).getD "medium")
    | none => "medium"
  "You are a health-focused chef AI. Output only valid JSON.\n\n" ++
  "User profile:\n" ++
  "- Name: " ++ user.name ++ "\n" ++
  "- Age: " ++ pyOrNat user.age "Not specified" ++ "\n" ++
  "- Height_cm: " ++ pyOrQ user.height_cm "Not specified" ++ "\n" ++
  "- Weight_kg: " ++ pyOrQ user.weight_kg "Not specified" ++ "\n" ++
  "- BMI: " ++ pyFloatRepr bmi ++ "\n" ++
  "- Diet: " ++ pyOrStr user.diet_type "No restrictions" ++ "\n" ++
  "- Allergies: " ++ pyOrStr user.allergies "None" ++ "\n" ++
  "- Health goal: " ++ pyOrStr user.goal "General health" ++ "\n\n" ++
  "Pantry ingredients available (list): " ++ pantryList ++ "\n" ++
  "Recent cooked recipes (titles): " ++ recentTitlesStr ++ "\n" ++
  "Preferred cuisine: " ++ cuisine ++ "\n" ++
  "Spice level: " ++ spiceLevel ++ "\n\n" ++
  "Task:\n" ++
  "- Using only the given pantry ingredients, generate ONE healthy recipe optimized for the user's health goal.\n" ++
  "- Avoid allergies and disliked items.\n" ++
  "- Ensure variety: do not repeat any recipe title that is similar to the recent titles.\n" ++
  "- If a required staple is missing (salt, oil, water), assume small amounts are available.\n" ++
  "- Make the recipe practical and easy to follow.\n\n" ++
  "Return JSON EXACTLY in this shape:\n" ++
  "\x7b\n  \"name\": \"Dish name\",\n  \"description\": \"Short description 1-2 sentences\",\n  \"ingredients\": [\n    \x7b\"name\":\"onion\", \"amount\":\"1 medium\"\x7d,\n    ...\n  ],\n  \"steps\": [\n    \"Step 1 ...\",\n    ...\n  ],\n  \"time_minutes\": 30,\n  \"difficulty\": \"easy|medium|hard\",\n  \"calories\": 420,\n  \"macros\": \x7b\"protein_g\":20, \"carbs_g\":50, \"fat_g\":10\x7d,\n  \"health_justification\": \"Brief sentence explaining why this suits the user's goals.\"\n\x7d"

/-- `ensure_non_repetitive` from `recipe_ai.py`: `True` on empty
history, else `False` exactly when the lowercased candidate name has
similarity ratio above 0.7 with the lowercased name of one of the
last 10 history entries. -/
def ensureNonRepetitive (history : List HistRow) (candidate : PyVal) : Bool :=
  if history.isEmpty then true
  else
    let candidateName := pyLower (pyStrD (pyGetD candidate "name" (.str "")))
    (lastN 10 history).all fun recipe =>
      !(similarityAbove7Tenths candidateName (pyLower recipe.recipe_name))

/-- The retry instruction appended to the prompt after a rejected,
non-final attempt. -/
def differentInstr : String :=
  "\n\nIMPORTANT: Generate a DIFFERENT recipe that is not similar to the recent recipes listed above."

/-- The `for attempt in range(max_attempts)` loop of
`generate_recipe_for_user`.  `genText attempt prompt` is the backend
client's `generate_recipe` reply on the given attempt (the backend is
an oracle: any client / any nondeterminism).  Returns the list of
prompts sent to the client, in order, paired with the outcome; a parse
error propagates (aborting the loop) as in Python.  Structural on the
remaining-attempts counter; the exhausted case models the `NameError`
a zero-iteration loop would raise and is unreachable from
`generateRecipeForUser`. -/
def generateLoop (genText : Nat → String → String) (avoidRepeats : Bool)
    (history : List HistRow) :
    Nat → Nat → String → List String × Except String PyVal
  | _, 0, _ => ([], .error "NameError: recipe_data is not defined")
  | attempt, remaining + 1, prompt =>
    match parseRecipeResponse (genText attempt prompt) with
    | .error e => ([prompt], .error e)
    | .ok recipeData =>
      if !avoidRepeats || history.isEmpty || ensureNonRepetitive history recipeData then
        ([prompt], .ok recipeData)
      else
        match remaining with
        | 0 => ([prompt], .ok recipeData)
        | rem + 1 =>
          let next := generateLoop genText avoidRepeats history
            (attempt + 1) (rem + 1) (prompt ++ differentInstr)
          (prompt :: next.1, next.2)

/-- The single prompt `generate_recipe_for_user` builds before the
loop: `build_recipe_prompt` over the names of the last 10 history
entries (empty titles on empty history). -/
def builtPrompt (user : UserRow) (pantryItems : List PantryRow)
    (preferences : Option (List (String × String))) (history : List HistRow) : String :=
  let recentTitles := if history.isEmpty then [] else (lastN 10 history).map (·.recipe_name)
  buildRecipePrompt user pantryItems preferences recentTitles

/-- `generate_recipe_for_user`: the last-10 recent titles, one prompt
build, then the 3-attempt loop. -/
def generateRecipeForUser (genText : Nat → String → String) (user : UserRow)
    (pantryItems : List PantryRow) (preferences : Option (List (String × String)))
    (history : List HistRow) (avoidRepeats : Bool) :
    List String × Except String PyVal :=
  generateLoop genText avoidRepeats history 0 3
    (builtPrompt user pantryItems preferences history)

/-! ## routers/users.py

`get_password_hash`, `verify_password` and `create_access_token` live
in `app/auth.py` and are opaque to every claim; they enter as oracle
parameters (`hash`, `verify`, `mkToken`). -/

structure UserRegisterData where
  name : String
  email : String
  password : String
  height_cm : Option ℚ := none
  weight_kg : Option ℚ := none
  age : Option Nat := none
  diet_type : Option String := none
  allergies : Option String := none
  goal : Option String := none

structure TokenResp where
  access_token : String
  token_type : String := "bearer"
deriving Repr, DecidableEq

/-- `register`: 400 (and no insert) when a user with the same email
exists, else insert the new user and answer 201 with a token for the
fresh id. -/
def register (hash : String → String) (mkToken : Nat → String)
    (userData : UserRegisterData) (nextId now : Nat) (db : List UserRow) :
    Except (Nat × String) (Nat × TokenResp) × List UserRow :=
  match db.find? (fun u => u.email == userData.email) with
  | some _ => (.error (400, "Email already registered"), db)
  | none =>
    let user : UserRow :=
      { id := nextId, name := userData.name, email := userData.email,
        password_hash := hash userData.password,
        height_cm := userData.height_cm, weight_kg := userData.weight_kg,
        age := userData.age, diet_type := userData.diet_type,
        allergies := userData.allergies, goal := userData.goal,
        created_at := now }
    (.ok (201, { access_token := mkToken nextId }), db ++ [user])

/-- `login`: 401 when no user carries the email or the password fails
verification against the stored hash; a token only otherwise. -/
def login (verify : String → String → Bool) (mkToken : Nat → String)
    (email password : String) (db : List UserRow) :
    Except (Nat × String) TokenResp :=
  match db.find? (fun u => u.email == email) with
  | none => .error (401, "Incorrect email or password")
  | some user =>
    if verify password user.password_hash then .ok { access_token := mkToken user.id }
    else .error (401, "Incorrect email or password")

/-! ## routers/pantry.py -/

structure PantryItemUpdateData where
  name : Option String := none
  quantity : Option ℚ := none
  unit : Option String := none

/-- Replace the first element satisfying `p` by its image under `f`
(the in-place mutation of the row the session found). -/
def modifyFirst (p : α → Bool) (f : α → α) : List α → List α
  | [] => []
  | x :: xs => if p x then f x :: xs else x :: modifyFirst p f xs

/-- Remove the first element satisfying `p` (`session.delete`). -/
def removeFirst (p : α → Bool) : List α → List α
  | [] => []
  | x :: xs => if p x then xs else x :: removeFirst p xs

/-- The three `if item_data.x is not None` field updates. -/
def applyPantryUpdate (upd : PantryItemUpdateData) (item : PantryRow) : PantryRow :=
  { item with
      name := match upd.name with | some n => n | none => item.name,
      quantity := match upd.quantity with | some q => q | none => item.quantity,
      unit := match upd.unit with | some u => u | none => item.unit }

/-- The row filter of both pantry item endpoints:
`PantryItem.id == item_id, PantryItem.user_id == current_user.id`. -/
def pantryOwnedPred (itemId uid : Nat) (it : PantryRow) : Bool :=
  it.id == itemId && it.user_id == uid

/-- `update_pantry_item`: look up the item by id *and* owner; 404 when
absent, else apply the partial update in place. -/
def updatePantryItem (itemId : Nat) (upd : PantryItemUpdateData) (uid : Nat)
    (db : List PantryRow) : Except (Nat × String) PantryRow × List PantryRow :=
  match db.find? (pantryOwnedPred itemId uid) with
  | none => (.error (404, "Pantry item not found"), db)
  | some item =>
    (.ok (applyPantryUpdate upd item),
     modifyFirst (pantryOwnedPred itemId uid) (applyPantryUpdate upd) db)

/-- `delete_pantry_item`: look up by id *and* owner; 404 when absent,
else delete (204). -/
def deletePantryItem (itemId uid : Nat) (db : List PantryRow) :
    Except (Nat × String) Unit × List PantryRow :=
  match db.find? (pantryOwnedPred itemId uid) with
  | none => (.error (404, "Pantry item not found"), db)
  | some _ => (.ok (), removeFirst (pantryOwnedPred itemId uid) db)

/-! ## routers/recipes.py — save_recipe -/

structure RecipeSaveRequestData where
  recipe_json : PyVal
  calories : Option ℚ := none

/-- The calorie fallback chain of `save_recipe`:

    calories = request.calories
    if not calories and "calories" in recipe_json: calories = recipe_json.get("calories")
    if not calories and "ingredients" in recipe_json: calories = estimate(...)

Note both `if not calories` guards re-test truthiness, so a falsy value
produced by an earlier stage (an explicit `0`, or a JSON `null`) falls
through to the next stage. -/
def saveRecipeCalories (reqCalories : Option ℚ) (recipeJson : PyVal) : Option PyVal :=
  let calories : Option PyVal := reqCalories.map PyVal.num
  let calories :=
    if !optTruthy calories && pyHasKey recipeJson "calories" then pyGet? recipeJson "calories"
    else calories
  let calories :=
    if !optTruthy calories && pyHasKey recipeJson "ingredients" then
      some (.num (estimateCaloriesFromIngredients
        (pyListD (pyGetD recipeJson "ingredients" (.list [])))))
    else calories
  calories

/-- The float-column coercion of the stored calories value (every value
the modelled flows store is a number or `None`). -/
def pyToCalories : Option PyVal → Option ℚ
  | some (.num q) => some q
  | _ => none

/-- `save_recipe`: build the history row (name defaulting to
"Unknown Recipe", the calorie chain, `json.dumps` of the dict) and
append it; the 201 response carries the row's fields. -/
def saveRecipe (request : RecipeSaveRequestData) (uid nextId now : Nat)
    (db : List HistRow) : HistRow × List HistRow :=
  let recipeJson := request.recipe_json
  let recipeName := pyStrD (pyGetD recipeJson "name" (.str "Unknown Recipe"))
  let histItem : HistRow :=
    { id := nextId, user_id := uid, recipe_name := recipeName,
      recipe_json := jsonDumps recipeJson,
      calories := pyToCalories (saveRecipeCalories request.calories recipeJson),
      created_at := now }
  (histItem, db ++ [histItem])

/-! ## routers/history.py -/

structure HistResponse where
  id : Nat
  recipe_name : String
  recipe_json : PyVal
  calories : Option ℚ
  created_at : Nat

/-- The `ORDER BY created_at DESC` comparator. -/
def histRowDesc (a b : HistRow) : Bool := decide (b.created_at ≤ a.created_at)

/-- The response projection of `get_history` (`json.loads` of the
stored text, `{}` on failure). -/
def histRowToResponse (item : HistRow) : HistResponse :=
  { id := item.id, recipe_name := item.recipe_name,
    recipe_json := (jsonLoads item.recipe_json).getD (.dict []),
    calories := item.calories, created_at := item.created_at }

/-- `get_history`: the user's rows, optionally restricted to the last
7/30 days, ordered by descending `created_at`. -/
def getHistory (period : Option String) (uid now : Nat) (db : List HistRow) :
    List HistResponse :=
  let rows := db.filter fun r => r.user_id == uid
  let rows :=
    if period == some "week" then rows.filter fun r => decide (now - 7 * 86400 ≤ r.created_at)
    else if period == some "month" then rows.filter fun r => decide (now - 30 * 86400 ≤ r.created_at)
    else rows
  (rows.mergeSort histRowDesc).map histRowToResponse

structure WeeklyReportData where
  total_calories : ℚ
  variety_score : ℚ
  top_ingredients : List (String × Nat)
  meals_count : Nat
  avg_calories_per_meal : ℚ

/-- The week filter of `get_weekly_report`
(`created_at >= utcnow() - timedelta(days=7)`, same user). -/
def weeklyItems (uid now : Nat) (db : List HistRow) : List HistRow :=
  db.filter fun r => r.user_id == uid && decide (now - 7 * 86400 ≤ r.created_at)

/-- `sum(item.calories or 0 for item in history_items)`. -/
def weeklyTotalCalories (items : List HistRow) : ℚ :=
  items.foldl (fun acc item => acc + item.calories.getD 0) 0

/-- Bump an insertion-ordered counter dict (`d[k] = d.get(k, 0) + 1`). -/
def bumpCount : List (String × Nat) → String → List (String × Nat)
  | [], k => [(k, 1)]
  | (k', c) :: rest, k =>
    if k' == k then (k', c + 1) :: rest else (k', c) :: bumpCount rest k

/-- `get_weekly_report`: total calories (missing as 0), meal count,
average (0 on an empty week) and variety score, each rounded to one
decimal, plus the five most-counted lowercased ingredient names
(Python's stable `sorted(..., reverse=True)`). -/
def getWeeklyReport (uid now : Nat) (db : List HistRow) : WeeklyReportData :=
  let items := weeklyItems uid now db
  let totalCalories := weeklyTotalCalories items
  let mealsCount := items.length
  let avgCalories : ℚ :=
    if 0 < mealsCount then totalCalories / (mealsCount : ℚ) else 0
  let uniqueRecipes := (items.map (·.recipe_name)).dedup.length
  let varietyScore : ℚ :=
    if 0 < mealsCount then (uniqueRecipes : ℚ) / (mealsCount : ℚ) * 100 else 0
  let counts := items.foldl
    (fun acc item =>
      match jsonLoads item.recipe_json with
      | none => acc
      | some rj =>
        (pyListD (pyGetD rj "ingredients" (.list []))).foldl
          (fun acc2 ing =>
            let ingName := pyLower (pyStrD (pyGetD ing "name" (.str "")))
            if ingName.isEmpty then acc2 else bumpCount acc2 ingName)
          acc)
    []
  { total_calories := round1 totalCalories,
    variety_score := round1 varietyScore,
    top_ingredients := (counts.mergeSort fun x y => decide (y.2 ≤ x.2)).take 5,
    meals_count := mealsCount,
    avg_calories_per_meal := round1 avgCalories }

/-! ## routers/recipes.py — get_daily_recipe

`generate_food_image` (`image_gen.py`) is a side-effect-free-for-state
call whose result feeds only the `image_url` response field; no claim
concerns it, so it is not modelled. -/

structure DailyResult where
  /-- The endpoint's recipe payload with its `suggested_at`, or the
  HTTP error (status, detail). -/
  response : Except (Nat × String) (PyVal × Nat)
  /-- The daily-suggestions table after the request. -/
  suggestions : List SuggRow
  /-- How many times the generation pipeline
  (`generate_recipe_for_user`) ran. -/
  pipelineCalls : Nat

/-- The cached-suggestion query of `get_daily_recipe`: the first
suggestion of the user with `today_start <= suggested_at < today_end`,
where `today_start` is the current UTC midnight. -/
def findTodaySuggestion (uid now : Nat) (suggestions : List SuggRow) : Option SuggRow :=
  let todayStart := now - now % 86400
  suggestions.find? fun s =>
    s.user_id == uid && decide (todayStart ≤ s.suggested_at) &&
      decide (s.suggested_at < todayStart + 86400)

/-- `get_daily_recipe`: return the cached suggestion when one exists
for today (no generation, no store); otherwise 400 on an empty pantry,
else run the pipeline once over the pantry and the 10 most recent
history rows, store the result as today's suggestion, and return it. -/
def getDailyRecipe (genText : Nat → String → String) (user : UserRow)
    (now nextId : Nat) (pantry : List PantryRow) (history : List HistRow)
    (suggestions : List SuggRow) : DailyResult :=
  match findTodaySuggestion user.id now suggestions with
  | some existing =>
    { response :=
        match jsonLoads existing.recipe_json with
        | some v => .ok (v, existing.suggested_at)
        | none => .error (500, "JSONDecodeError"),
      suggestions := suggestions, pipelineCalls := 0 }
  | none =>
    let userPantry := pantry.filter fun it => it.user_id == user.id
    if userPantry.isEmpty then
      { response := .error (400, "No pantry items found. Please add ingredients to your pantry first."),
        suggestions := suggestions, pipelineCalls := 0 }
    else
      let recent := ((history.filter fun r => r.user_id == user.id).mergeSort histRowDesc).take 10
      match (generateRecipeForUser genText user userPantry none recent true).2 with
      | .error e => { response := .error (500, e), suggestions := suggestions, pipelineCalls := 1 }
      | .ok recipeData =>
        { response := .ok (recipeData, now),
          suggestions := suggestions ++
            [{ id := nextId, user_id := user.id, recipe_json := jsonDumps recipeData,
               suggested_at := now }],
          pipelineCalls := 1 }

/-! ## Theorems -/

set_option maxRecDepth 200000

/-- The Ollama/local fallback literal parses and validates cleanly. -/
theorem parse_fallbackStirFry : parseRecipeResponse fallbackStirFry = .ok fallbackStirFryVal := by
  rfl

/-- The API-client fallback literal parses and validates cleanly. -/
theorem parse_healthyBowl : parseRecipeResponse healthyBowl = .ok healthyBowlVal := by
  rfl

/-- Claim C2: `ensure_non_repetitive` compares the lowercased candidate
name against the lowercased names of the last 10 history entries with
`SequenceMatcher.ratio`, returning `False` exactly when some ratio is
strictly above 0.7, and `True` on an empty history. -/
theorem claim2_non_repetition_check (history : List HistRow) (candidate : PyVal) :
    (ensureNonRepetitive history candidate = false ↔
      ∃ recipe ∈ lastN 10 history,
        (7 : ℚ) / 10 < ratioQ (pyLower (pyStrD (pyGetD candidate "name" (.str ""))))
          (pyLower recipe.recipe_name)) ∧
    ensureNonRepetitive [] candidate = true := by
  refine ⟨?_, by simp [ensureNonRepetitive]⟩
  cases history with
  | nil => simp [ensureNonRepetitive, lastN]
  | cons h t =>
    simp only [ensureNonRepetitive, List.isEmpty_cons, Bool.false_eq_true, if_false,
      List.all_eq_false, Bool.not_eq_false]
    constructor
    · rintro ⟨r, hr, hsim⟩
      refine ⟨r, hr, (ratioQ_gt_iff _ _).mpr ?_⟩
      simpa using hsim
    · rintro ⟨r, hr, hsim⟩
      refine ⟨r, hr, ?_⟩
      simpa using (ratioQ_gt_iff _ _).mp hsim

/-- On every rejected-or-not path, a backend that always answers the
fallback string makes the orchestration loop succeed with the parsed
fallback recipe. -/
theorem generateLoop_const_fallback (avoidRepeats : Bool) (history : List HistRow) :
    ∀ remaining attempt prompt, 0 < remaining →
      (generateLoop (fun _ _ => fallbackStirFry) avoidRepeats history
        attempt remaining prompt).2 = .ok fallbackStirFryVal := by
  intro remaining
  induction remaining with
  | zero => intro _ _ h; omega
  | succ rem ih =>
    intro attempt prompt _
    show (generateLoop _ _ _ attempt (rem + 1) prompt).2 = _
    rw [generateLoop, parse_fallbackStirFry]
    dsimp only
    split
    · rfl
    · cases rem with
      | zero => rfl
      | succ r => exact ih (attempt + 1) (prompt ++ differentInstr) (Nat.succ_pos r)

/-- Claim C4: each backend variant answers its fixed fallback literal
on any exception of its single call (and on a missing model / missing
configuration); the fallback parses cleanly, so a failing backend
never surfaces an error from the generation pipeline. -/
theorem claim4_backend_fallbacks :
    (∀ prompt : String,
      ollamaGenerateRecipe prompt .exc = fallbackStirFry ∧
      localGenerateRecipe true prompt .exc = fallbackStirFry ∧
      (∀ outcome, localGenerateRecipe false prompt outcome = fallbackStirFry) ∧
      apiGenerateRecipe true prompt .exc = healthyBowl ∧
      (∀ outcome, apiGenerateRecipe false prompt outcome = healthyBowl)) ∧
    parseRecipeResponse fallbackStirFry = .ok fallbackStirFryVal ∧
    parseRecipeResponse healthyBowl = .ok healthyBowlVal ∧
    (∀ user pantryItems preferences history avoidRepeats,
      (generateRecipeForUser (fun _ _ => fallbackStirFry) user pantryItems preferences
        history avoidRepeats).2 = .ok fallbackStirFryVal) :=
  ⟨fun _ => ⟨rfl, rfl, fun _ => rfl, rfl, fun _ => rfl⟩,
   parse_fallbackStirFry, parse_healthyBowl,
   fun _ _ _ history avoidRepeats =>
     generateLoop_const_fallback avoidRepeats history 3 0 _ (by omega)⟩

/-- Claim C6: registering an email that already exists answers 400 and
inserts nothing; a fresh email inserts exactly the new user row and
answers 201 with a token. -/
theorem claim6_register (hash : String → String) (mkToken : Nat → String)
    (userData : UserRegisterData) (nextId now : Nat) (db : List UserRow) :
    ((∃ u ∈ db, u.email = userData.email) →
      register hash mkToken userData nextId now db =
        (.error (400, "Email already registered"), db)) ∧
    ((∀ u ∈ db, u.email ≠ userData.email) →
      register hash mkToken userData nextId now db =
        (.ok (201, { access_token := mkToken nextId }),
         db ++ [{ id := nextId, name := userData.name, email := userData.email,
                  password_hash := hash userData.password,
                  height_cm := userData.height_cm, weight_kg := userData.weight_kg,
                  age := userData.age, diet_type := userData.diet_type,
                  allergies := userData.allergies, goal := userData.goal,
                  created_at := now }])) := by
  constructor
  · rintro ⟨u, hu, he⟩
    have hsome : ∃ v, db.find? (fun x => x.email == userData.email) = some v := by
      rw [← Option.isSome_iff_exists, List.find?_isSome]
      exact ⟨u, hu, by simp [he]⟩
    obtain ⟨v, hv⟩ := hsome
    unfold register
    rw [hv]
  · intro h
    have hnone : db.find? (fun x => x.email == userData.email) = none := by
      rw [List.find?_eq_none]
      intro x hx
      simp [h x hx]
    unfold register
    rw [hnone]

/-- Witness for C6 at a concrete duplicate registration. -/
theorem claim6_register_witness :
    register (fun s => s) (fun _ => "tok")
        { name := "Bea", email := "a@x.io", password := "pw" } 2 5
        [{ id := 1, name := "Ann", email := "a@x.io", password_hash := "h" }] =
      (.error (400, "Email already registered"),
       [{ id := 1, name := "Ann", email := "a@x.io", password_hash := "h" }]) :=
  (claim6_register (fun s => s) (fun _ => "tok")
      { name := "Bea", email := "a@x.io", password := "pw" } 2 5
      [{ id := 1, name := "Ann", email := "a@x.io", password_hash := "h" }]).1
    ⟨_, List.mem_singleton.mpr rfl, rfl⟩

/-- Claim C7: whenever the email is unknown or the stored hash rejects
the supplied password, `login` answers 401 and issues no token. -/
theorem claim7_login (verify : String → String → Bool) (mkToken : Nat → String)
    (email password : String) (db : List UserRow)
    (h : ∀ u, db.find? (fun x => x.email == email) = some u →
      verify password u.password_hash = false) :
    login verify mkToken email password db = .error (401, "Incorrect email or password") := by
  unfold login
  cases hf : db.find? (fun x => x.email == email) with
  | none => rfl
  | some u => simp [h u hf]

/-- Witness for C7: login against an empty user table. -/
theorem claim7_login_witness :
    login (fun _ _ => true) (fun _ => "tok") "a@x.io" "pw" [] =
      .error (401, "Incorrect email or password") :=
  claim7_login (fun _ _ => true) (fun _ => "tok") "a@x.io" "pw" []
    (fun u h => by simp at h)

/-- Replacing an element that `q` rejects (before and after the
replacement) leaves the `q`-selected sublist unchanged. -/
theorem modifyFirst_filter_eq (p q : α → Bool) (f : α → α) (l : List α)
    (hpq : ∀ x, p x = true → q x = false ∧ q (f x) = false) :
    (modifyFirst p f l).filter q = l.filter q := by
  induction l with
  | nil => rfl
  | cons x xs ih =>
    by_cases hp : p x = true
    · obtain ⟨hqx, hqfx⟩ := hpq x hp
      simp [modifyFirst, hp, List.filter_cons, hqx, hqfx]
    · have hp' : p x = false := by simpa using hp
      simp only [modifyFirst, hp', Bool.false_eq_true, if_false, List.filter_cons]
      rw [ih]

/-- Removing an element that `q` rejects leaves the `q`-selected
sublist unchanged. -/
theorem removeFirst_filter_eq (p q : α → Bool) (l : List α)
    (hpq : ∀ x, p x = true → q x = false) :
    (removeFirst p l).filter q = l.filter q := by
  induction l with
  | nil => rfl
  | cons x xs ih =>
    by_cases hp : p x = true
    · simp [removeFirst, hp, List.filter_cons, hpq x hp]
    · have hp' : p x = false := by simpa using hp
      simp only [removeFirst, hp', Bool.false_eq_true, if_false, List.filter_cons]
      rw [ih]

/-- Claim C9: the pantry update/delete endpoints answer 404 and leave
every row of every user untouched when no row has both the requested
id and the requester as owner; and whatever happens, rows of any other
user are never modified. -/
theorem claim9_pantry_scoping (itemId : Nat) (upd : PantryItemUpdateData) (uid : Nat)
    (db : List PantryRow) :
    ((∀ it ∈ db, ¬(it.id = itemId ∧ it.user_id = uid)) →
      updatePantryItem itemId upd uid db = (.error (404, "Pantry item not found"), db) ∧
      deletePantryItem itemId uid db = (.error (404, "Pantry item not found"), db)) ∧
    (∀ v, v ≠ uid →
      (updatePantryItem itemId upd uid db).2.filter (fun it => it.user_id == v) =
        db.filter (fun it => it.user_id == v) ∧
      (deletePantryItem itemId uid db).2.filter (fun it => it.user_id == v) =
        db.filter (fun it => it.user_id == v)) := by
  constructor
  · intro h
    have hnone : db.find? (pantryOwnedPred itemId uid) = none := by
      rw [List.find?_eq_none]
      intro x hx
      have := h x hx
      simp only [pantryOwnedPred, Bool.and_eq_true, beq_iff_eq]
      tauto
    constructor
    · unfold updatePantryItem
      rw [hnone]
    · unfold deletePantryItem
      rw [hnone]
  · intro v hv
    have hpq : ∀ x, pantryOwnedPred itemId uid x = true → (x.user_id == v) = false := by
      intro x hx
      simp only [pantryOwnedPred, Bool.and_eq_true, beq_iff_eq] at hx
      simp [hx.2, Ne.symm hv]
    constructor
    · unfold updatePantryItem
      cases hf : db.find? (pantryOwnedPred itemId uid) with
      | none => rfl
      | some item =>
        dsimp only
        exact modifyFirst_filter_eq _ _ _ db
          (fun x hx => ⟨hpq x hx, by
            have := hpq x hx
            simpa [applyPantryUpdate] using this⟩)
    · unfold deletePantryItem
      cases hf : db.find? (pantryOwnedPred itemId uid) with
      | none => rfl
      | some item =>
        dsimp only
        exact removeFirst_filter_eq _ _ db hpq

/-- Witness for C9: an update and a delete aimed at another user's row
404 and change nothing. -/
theorem claim9_pantry_scoping_witness :
    updatePantryItem 1 {} 9 [{ id := 1, user_id := 7, name := "milk", quantity := 1, unit := "l" }] =
      (.error (404, "Pantry item not found"),
       [{ id := 1, user_id := 7, name := "milk", quantity := 1, unit := "l" }]) ∧
    deletePantryItem 1 9 [{ id := 1, user_id := 7, name := "milk", quantity := 1, unit := "l" }] =
      (.error (404, "Pantry item not found"),
       [{ id := 1, user_id := 7, name := "milk", quantity := 1, unit := "l" }]) :=
  (claim9_pantry_scoping 1 {} 9
      [{ id := 1, user_id := 7, name := "milk", quantity := 1, unit := "l" }]).1
    (by
      intro it hit
      rw [List.mem_singleton] at hit
      subst hit
      simp)

/-- The loop sends at most `remaining` prompts to the backend. -/
theorem generateLoop_length_le (genText : Nat → String → String) (avoidRepeats : Bool)
    (history : List HistRow) :
    ∀ remaining attempt prompt,
      (generateLoop genText avoidRepeats history attempt remaining prompt).1.length ≤ remaining := by
  intro remaining
  induction remaining with
  | zero =>
    intro attempt prompt
    simp [generateLoop]
  | succ rem ih =>
    intro attempt prompt
    rw [generateLoop]
    cases hp : parseRecipeResponse (genText attempt prompt) with
    | error e => simp
    | ok r =>
      dsimp only
      split
      · simp
      · cases rem with
        | zero => simp
        | succ r2 =>
          simp only [List.length_cons]
          have := ih (attempt + 1) (prompt ++ differentInstr)
          omega

/-- Claim C1: with a nonempty history and all three parsed attempts
rejected by the non-repetition check, `generate_recipe_for_user`
builds its prompt once, sends exactly three prompts — the built one,
then twice the previous prompt with the "DIFFERENT recipe" instruction
appended — and returns the third attempt's parsed recipe
unconditionally; and with any backend, at most 3 calls are made. -/
theorem claim1_generation_orchestration (genText : Nat → String → String) (user : UserRow)
    (pantryItems : List PantryRow) (preferences : Option (List (String × String)))
    (history : List HistRow) (r0 r1 r2 : PyVal)
    (hne : history ≠ [])
    (hp0 : parseRecipeResponse
      (genText 0 (builtPrompt user pantryItems preferences history)) = .ok r0)
    (hr0 : ensureNonRepetitive history r0 = false)
    (hp1 : parseRecipeResponse
      (genText 1 (builtPrompt user pantryItems preferences history ++ differentInstr)) = .ok r1)
    (hr1 : ensureNonRepetitive history r1 = false)
    (hp2 : parseRecipeResponse
      (genText 2 (builtPrompt user pantryItems preferences history ++ differentInstr ++
        differentInstr)) = .ok r2)
    (hr2 : ensureNonRepetitive history r2 = false) :
    generateRecipeForUser genText user pantryItems preferences history true =
      ([builtPrompt user pantryItems preferences history,
        builtPrompt user pantryItems preferences history ++ differentInstr,
        builtPrompt user pantryItems preferences history ++ differentInstr ++ differentInstr],
       .ok r2) ∧
    ∀ g avoidRepeats,
      (generateRecipeForUser g user pantryItems preferences history avoidRepeats).1.length ≤ 3 := by
  have hie : history.isEmpty = false := by
    cases history with
    | nil => exact absurd rfl hne
    | cons h t => rfl
  refine ⟨?_, fun g av => generateLoop_length_le g av history 3 0 _⟩
  show generateLoop genText true history 0 3 (builtPrompt user pantryItems preferences history) = _
  rw [show (3 : Nat) = Nat.succ 2 from rfl, generateLoop, hp0]
  simp only [Bool.not_true, hie, hr0, Bool.false_or, Bool.false_eq_true, if_false]
  simp only [Nat.zero_add]
  rw [generateLoop, hp1]
  simp only [Bool.not_true, hie, hr1, Bool.false_or, Bool.false_eq_true, if_false]
  simp only [Nat.reduceAdd]
  rw [generateLoop, hp2]
  simp only [Bool.not_true, hie, hr2, Bool.false_or, Bool.false_eq_true, if_false]

/-- A minimal valid backend reply whose recipe name repeats the
history entry "Pasta" (used to exercise the rejection path). -/
def c1Text : String :=
  "\x7b\"name\": \"Pasta\", \"description\": \"d\", \"ingredients\": [], \"steps\": [], \"time_minutes\": 1, \"difficulty\": \"easy\", \"calories\": 1, \"macros\": \x7b\x7d\x7d"

/-- The parse of `c1Text`. -/
def c1Val : PyVal := .dict
  [("name", .str "Pasta"), ("description", .str "d"), ("ingredients", .list []),
   ("steps", .list []), ("time_minutes", .num 1), ("difficulty", .str "easy"),
   ("calories", .num 1), ("macros", .dict [])]

def c1Hist : List HistRow :=
  [{ id := 1, user_id := 1, recipe_name := "Pasta", recipe_json := "x", created_at := 0 }]

def c1User : UserRow := { id := 1, name := "U", email := "u@x", password_hash := "h" }

/-- Witness for C1: a backend that always repeats "Pasta" against a
"Pasta" history is called exactly three times, on the built prompt and
its two instruction-extended forms, and the loop returns the last
(still repetitive) parse. -/
theorem claim1_generation_orchestration_witness :
    generateRecipeForUser (fun _ _ => c1Text) c1User [] none c1Hist true =
      ([builtPrompt c1User [] none c1Hist,
        builtPrompt c1User [] none c1Hist ++ differentInstr,
        builtPrompt c1User [] none c1Hist ++ differentInstr ++ differentInstr],
       .ok c1Val) :=
  (claim1_generation_orchestration (fun _ _ => c1Text) c1User [] none c1Hist c1Val c1Val c1Val
    (by simp [c1Hist]) (by rfl) (by rfl) (by rfl) (by rfl) (by rfl) (by rfl)).1

/-- Claim C5: with a suggestion already recorded for the current UTC
day, the daily endpoint answers the stored suggestion's recipe JSON,
stores nothing and never invokes the generation pipeline; whenever it
stores or generates, no suggestion existed for today. -/
theorem claim5_daily_caching (genText : Nat → String → String) (user : UserRow)
    (now nextId : Nat) (pantry : List PantryRow) (history : List HistRow)
    (suggestions : List SuggRow) :
    (∀ s, findTodaySuggestion user.id now suggestions = some s →
      getDailyRecipe genText user now nextId pantry history suggestions =
        { response :=
            match jsonLoads s.recipe_json with
            | some v => .ok (v, s.suggested_at)
            | none => .error (500, "JSONDecodeError"),
          suggestions := suggestions, pipelineCalls := 0 }) ∧
    ((getDailyRecipe genText user now nextId pantry history suggestions).suggestions ≠
        suggestions ∨
      0 < (getDailyRecipe genText user now nextId pantry history suggestions).pipelineCalls →
      findTodaySuggestion user.id now suggestions = none) := by
  constructor
  · intro s hs
    unfold getDailyRecipe
    rw [hs]
  · intro h
    cases hf : findTodaySuggestion user.id now suggestions with
    | none => rfl
    | some s =>
      exfalso
      unfold getDailyRecipe at h
      rw [hf] at h
      rcases h with h | h
      · exact h rfl
      · simp at h

/-- A stored daily suggestion used by the C5 witness. -/
def c5Sugg : SuggRow :=
  { id := 1, user_id := 5, recipe_json := "\x7b\"a\": 1\x7d", suggested_at := 1000 }

/-- Witness for C5: a second same-day request answers the parsed
stored JSON, stores nothing, and the pipeline is not invoked. -/
theorem claim5_daily_caching_witness :
    getDailyRecipe (fun _ _ => "") { id := 5, name := "U", email := "u@x", password_hash := "h" }
        2000 9 [] [] [c5Sugg] =
      { response := .ok (.dict [("a", .num 1)], 1000),
        suggestions := [c5Sugg], pipelineCalls := 0 } := by
  rw [(claim5_daily_caching (fun _ _ => "")
    { id := 5, name := "U", email := "u@x", password_hash := "h" }
    2000 9 [] [] [c5Sugg]).1 c5Sugg (by rfl)]
  rfl

/-- Banker's rounding fixes every integer. -/
theorem roundHalfEven_intCast (n : ℤ) : roundHalfEven (n : ℚ) = n := by
  unfold roundHalfEven
  rw [Int.floor_intCast]
  rw [if_pos (by norm_num)]

/-- `round(0, 1) = 0`. -/
theorem round1_zero : round1 0 = 0 := by
  unfold round1
  rw [show ((0 : ℚ) * 10) = ((0 : ℤ) : ℚ) by norm_num, roundHalfEven_intCast]
  norm_num

/-- `round(1/3, 1) = 0.3`. -/
theorem round1_third : round1 ((1 : ℚ) / 3) = 3 / 10 := by
  unfold round1 roundHalfEven
  have hf : ⌊(1 : ℚ) / 3 * 10⌋ = 3 := by
    rw [Int.floor_eq_iff]
    constructor
    · norm_num
    · norm_num
  rw [hf, if_pos (by norm_num)]
  norm_num

/-- The C3 history: one user, three meals this week, calories 1, 0 and
missing. -/
def c3Rows : List HistRow :=
  [{ id := 1, user_id := 1, recipe_name := "a", recipe_json := "x", calories := some 1,
     created_at := 100 },
   { id := 2, user_id := 1, recipe_name := "b", recipe_json := "x", calories := some 0,
     created_at := 100 },
   { id := 3, user_id := 1, recipe_name := "c", recipe_json := "x", calories := none,
     created_at := 100 }]

/-- Counterexample to C3 as stated: with total 1 over 3 meals the
report's average is `round(1/3, 1) = 0.3`, not `total/meals = 1/3` —
the claim omits the one-decimal rounding. -/
theorem claim3_weekly_avg_counterexample :
    (getWeeklyReport 1 100 c3Rows).avg_calories_per_meal = 3 / 10 ∧
    weeklyTotalCalories (weeklyItems 1 100 c3Rows) /
      ((weeklyItems 1 100 c3Rows).length : ℚ) = 1 / 3 ∧
    (3 / 10 : ℚ) ≠ 1 / 3 := by
  have hitems : weeklyItems 1 100 c3Rows = c3Rows := by rfl
  have htot : weeklyTotalCalories c3Rows = 1 := by
    unfold weeklyTotalCalories c3Rows
    simp [List.foldl]
  refine ⟨?_, ?_, by norm_num⟩
  · show round1 _ = 3 / 10
    rw [hitems]
    rw [if_pos (by simp [c3Rows])]
    rw [htot]
    rw [show ((c3Rows.length : ℚ)) = 3 from by norm_num [c3Rows]]
    exact round1_third
  · rw [hitems, htot]
    rw [show ((c3Rows.length : ℚ)) = 3 from by norm_num [c3Rows]]

/-- Claim C3 (amended): the report's `avg_calories_per_meal` equals
`round(total_calories / meals_count, 1)` when `meals_count > 0`, else
0, with `total_calories` the sum of the week's entries' calories
(missing as 0) and `meals_count` their number. -/
theorem claim3_weekly_avg (uid now : Nat) (db : List HistRow) :
    (getWeeklyReport uid now db).meals_count = (weeklyItems uid now db).length ∧
    (getWeeklyReport uid now db).avg_calories_per_meal =
      (if 0 < (weeklyItems uid now db).length then
        round1 (weeklyTotalCalories (weeklyItems uid now db) /
          ((weeklyItems uid now db).length : ℚ))
      else 0) := by
  refine ⟨rfl, ?_⟩
  show round1 _ = _
  by_cases h : 0 < (weeklyItems uid now db).length
  · rw [if_pos h, if_pos h]
  · rw [if_neg h, if_neg h]
    exact round1_zero

/-- The calorie fallback chain as claim C10's sentence describes it:
the request's calories if truthy; otherwise the recipe JSON's
`calories` whenever that key is present; otherwise the ingredient
heuristic.  (Differs from `saveRecipeCalories` when the JSON carries a
falsy `calories` value: the code then falls through to the
heuristic.) -/
def claimedCaloriesChain (reqCalories : Option ℚ) (recipeJson : PyVal) : Option PyVal :=
  if optTruthy (reqCalories.map PyVal.num) then reqCalories.map PyVal.num
  else if pyHasKey recipeJson "calories" then pyGet? recipeJson "calories"
  else some (.num (estimateCaloriesFromIngredients
    (pyListD (pyGetD recipeJson "ingredients" (.list [])))))

/-- With no ingredient matching the calorie table, the heuristic
answers `50 * len(ingredients)`. -/
theorem estimate_no_match (ingredients : List PyVal)
    (h : ∀ ing ∈ ingredients,
      calorieTable.find?
        (fun kv => strContains (pyLower (pyStrD (pyGetD ing "name" (.str "")))) kv.1) = none) :
    estimateCaloriesFromIngredients ingredients = (ingredients.length : ℚ) * 50 := by
  unfold estimateCaloriesFromIngredients
  have aux : ∀ (l : List PyVal),
      (∀ ing ∈ l,
        calorieTable.find?
          (fun kv => strContains (pyLower (pyStrD (pyGetD ing "name" (.str "")))) kv.1) = none) →
      ∀ acc : ℚ,
        l.foldl
          (fun acc ing =>
            match calorieTable.find?
              (fun kv => strContains (pyLower (pyStrD (pyGetD ing "name" (.str "")))) kv.1) with
            | some kv => acc + kv.2 * (1 / 2)
            | none => acc)
          acc = acc := by
    intro l hl
    induction l with
    | nil => intro acc; rfl
    | cons x xs ih =>
      intro acc
      rw [List.foldl_cons]
      have hx := hl x (List.mem_cons_self x xs)
      rw [show (match calorieTable.find?
            (fun kv => strContains (pyLower (pyStrD (pyGetD x "name" (.str "")))) kv.1) with
          | some kv => acc + kv.2 * (1 / 2)
          | none => acc) = acc from by rw [hx]]
      exact ih (fun ing hing => hl ing (List.mem_cons_of_mem x hing)) acc
  rw [aux ingredients h 0]
  dsimp only
  rw [if_pos rfl]
  rw [show ((ingredients.length : ℚ) * 50) = (((ingredients.length * 50 : ℕ) : ℤ) : ℚ) from by
    push_cast; ring]
  rw [round0, roundHalfEven_intCast]

/-- The C10 recipe JSON: an explicit `"calories": 0` plus one
ingredient matching no calorie-table entry. -/
def c10Json : PyVal := .dict
  [("calories", .num 0),
   ("ingredients", .list [.dict [("name", .str "unicorn"), ("amount", .str "1")]])]

/-- Counterexample to C10 as stated: with no request calories and
`"calories": 0` present in the JSON, the code stores the heuristic
estimate (50), not the present-but-zero JSON value (0) that the
claimed chain ("the recipe JSON's calories field if present") would
keep. -/
theorem claim10_calories_counterexample :
    saveRecipeCalories none c10Json = some (.num 50) ∧
    claimedCaloriesChain none c10Json = some (.num 0) ∧
    (PyVal.num 50) ≠ (PyVal.num 0) := by
  have hest : estimateCaloriesFromIngredients
      [PyVal.dict [("name", .str "unicorn"), ("amount", .str "1")]] = 50 := by
    rw [estimate_no_match]
    · norm_num
    · intro ing hing
      rw [List.mem_singleton] at hing
      subst hing
      decide
  refine ⟨?_, by rfl, ?_⟩
  · show some (PyVal.num (estimateCaloriesFromIngredients
      [PyVal.dict [("name", .str "unicorn"), ("amount", .str "1")]])) = some (.num 50)
    rw [hest]
  · intro h
    injection h with h'
    norm_num at h'

/-- Claim C10 (amended): the stored calories follow the chain with
*truthiness* re-tested at each stage — the request's calories if
truthy; else the JSON's `calories` if present; and if the value so far
is still falsy (absent, `None`, or `0`) and the JSON has an
`ingredients` key, the ingredient heuristic, which answers
`50 * len(ingredients)` when nothing matches the calorie table.  An
explicit 0 in the request acts like a missing value whenever a later
stage exists. -/
theorem claim10_calorie_chain (req : Option ℚ) (json : PyVal) :
    (optTruthy (req.map PyVal.num) = true →
      saveRecipeCalories req json = req.map PyVal.num) ∧
    (optTruthy (req.map PyVal.num) = false → pyHasKey json "calories" = true →
      optTruthy (pyGet? json "calories") = true →
      saveRecipeCalories req json = pyGet? json "calories") ∧
    (optTruthy (req.map PyVal.num) = false → pyHasKey json "calories" = true →
      optTruthy (pyGet? json "calories") = false → pyHasKey json "ingredients" = true →
      saveRecipeCalories req json =
        some (.num (estimateCaloriesFromIngredients
          (pyListD (pyGetD json "ingredients" (.list [])))))) ∧
    (optTruthy (req.map PyVal.num) = false → pyHasKey json "calories" = false →
      pyHasKey json "ingredients" = true →
      saveRecipeCalories req json =
        some (.num (estimateCaloriesFromIngredients
          (pyListD (pyGetD json "ingredients" (.list [])))))) ∧
    ((pyHasKey json "calories" || pyHasKey json "ingredients") = true →
      saveRecipeCalories (some 0) json = saveRecipeCalories none json) ∧
    (∀ ingredients : List PyVal,
      (∀ ing ∈ ingredients, ∀ kv ∈ calorieTable,
        strContains (pyLower (pyStrD (pyGetD ing "name" (.str "")))) kv.1 = false) →
      estimateCaloriesFromIngredients ingredients = (ingredients.length : ℚ) * 50) := by
  refine ⟨?_, ?_, ?_, ?_, ?_, ?_⟩
  · intro h1
    unfold saveRecipeCalories
    simp only [h1, Bool.not_true, Bool.false_and, Bool.false_eq_true, if_false]
  · intro h1 h2 h3
    unfold saveRecipeCalories
    simp only [h1, h2, Bool.not_false, Bool.true_and, if_true, h3, Bool.not_true,
      Bool.false_and, Bool.false_eq_true, if_false]
  · intro h1 h2 h3 h4
    unfold saveRecipeCalories
    simp only [h1, h2, Bool.not_false, Bool.true_and, if_true, h3, h4, Bool.false_eq_true]
  · intro h1 h2 h3
    unfold saveRecipeCalories
    simp only [h1, h2, Bool.not_false, Bool.true_and, Bool.false_eq_true, if_false, h3,
      Bool.and_true]
    rw [if_pos (by simp [h1])]
  · intro h
    unfold saveRecipeCalories
    have e1 : Option.map PyVal.num (some (0 : ℚ)) = some (PyVal.num 0) := rfl
    have e2 : Option.map PyVal.num (none : Option ℚ) = none := rfl
    have e3 : optTruthy (some (PyVal.num 0)) = false := rfl
    have e4 : optTruthy (none : Option PyVal) = false := rfl
    cases h2 : pyHasKey json "calories" with
    | true =>
      simp only [e1, e2, e3, e4, h2, Bool.not_false, Bool.true_and, Bool.and_true, if_true]
    | false =>
      have h3 : pyHasKey json "ingredients" = true := by
        cases h4 : pyHasKey json "ingredients" with
        | true => rfl
        | false => rw [h2, h4] at h; simp at h
      simp only [e1, e2, e3, e4, h2, h3, Bool.not_false, Bool.true_and, Bool.and_true,
        Bool.and_false, Bool.false_eq_true, if_false, if_true]
  · intro ingredients hno
    apply estimate_no_match
    intro ing hing
    rw [List.find?_eq_none]
    intro kv hkv
    simp [hno ing hing kv hkv]

/-- Witness for C10 (amended chain) at a truthy request value. -/
theorem claim10_calorie_chain_witness :
    saveRecipeCalories (some 5) (.dict []) = some (.num 5) :=
  ((claim10_calorie_chain (some 5) (.dict [])).1 (by rfl)).trans rfl

theorem histRowDesc_trans : ∀ a b c : HistRow,
    histRowDesc a b = true → histRowDesc b c = true → histRowDesc a c = true := by
  intro a b c h1 h2
  simp only [histRowDesc, decide_eq_true_eq] at h1 h2 ⊢
  omega

theorem histRowDesc_total : ∀ a b : HistRow,
    (histRowDesc a b || histRowDesc b a) = true := by
  intro a b
  simp only [histRowDesc, Bool.or_eq_true, decide_eq_true_eq]
  omega

/-- An element strictly newer than every other lands at the head of
the descending sort. -/
theorem mergeSort_head_of_strict_max (l : List HistRow) (x : HistRow)
    (hx : x ∈ l) (hmax : ∀ y ∈ l, y ≠ x → y.created_at < x.created_at) :
    (l.mergeSort histRowDesc).head? = some x := by
  have hperm := List.mergeSort_perm l histRowDesc
  have hsorted := @List.sorted_mergeSort HistRow histRowDesc histRowDesc_trans histRowDesc_total l
  cases hms : l.mergeSort histRowDesc with
  | nil =>
    have hmem : x ∈ l.mergeSort histRowDesc := hperm.mem_iff.mpr hx
    rw [hms] at hmem
    cases hmem
  | cons hd tl =>
    rw [hms] at hsorted hperm
    by_cases hhd : hd = x
    · rw [hhd]
      rfl
    · exfalso
      have hxm : x ∈ hd :: tl := hperm.mem_iff.mpr hx
      rcases List.mem_cons.mp hxm with heq | hxt
      · exact hhd heq.symm
      · have hle : histRowDesc hd x = true := (List.pairwise_cons.mp hsorted).1 x hxt
        have hhl : hd ∈ l := hperm.mem_iff.mp (List.mem_cons_self hd tl)
        have hlt := hmax hd hhl hhd
        simp only [histRowDesc, decide_eq_true_eq] at hle
        omega

/-- Claim C8: after saving a recipe (strictly after every earlier save
of that user), listing the history contains the saved recipe, the
listing is ordered by descending `created_at`, and the fresh save is
its first element. -/
theorem claim8_save_then_list (request : RecipeSaveRequestData) (uid nextId now now2 : Nat)
    (db : List HistRow)
    (hfresh : ∀ r ∈ db, r.user_id = uid → r.created_at < now) :
    histRowToResponse (saveRecipe request uid nextId now db).1 ∈
      getHistory none uid now2 (saveRecipe request uid nextId now db).2 ∧
    (getHistory none uid now2 (saveRecipe request uid nextId now db).2).head? =
      some (histRowToResponse (saveRecipe request uid nextId now db).1) ∧
    List.Pairwise (fun x y => y.created_at ≤ x.created_at)
      (getHistory none uid now2 (saveRecipe request uid nextId now db).2) := by
  have hdb2 : (saveRecipe request uid nextId now db).2 =
      db ++ [(saveRecipe request uid nextId now db).1] := rfl
  have hsaved_user : ((saveRecipe request uid nextId now db).1).user_id = uid := rfl
  have hsaved_time : ((saveRecipe request uid nextId now db).1).created_at = now := rfl
  have hrows : ((saveRecipe request uid nextId now db).2).filter (fun r => r.user_id == uid) =
      db.filter (fun r => r.user_id == uid) ++ [(saveRecipe request uid nextId now db).1] := by
    rw [hdb2, List.filter_append]
    simp [List.filter, hsaved_user]
  have hgh : getHistory none uid now2 (saveRecipe request uid nextId now db).2 =
      ((db.filter (fun r => r.user_id == uid) ++
        [(saveRecipe request uid nextId now db).1]).mergeSort histRowDesc).map
        histRowToResponse := by
    unfold getHistory
    rw [show ((none : Option String) == some "week") = false from rfl,
        show ((none : Option String) == some "month") = false from rfl]
    simp only [Bool.false_eq_true, if_false]
    rw [hrows]
  have hmem : (saveRecipe request uid nextId now db).1 ∈
      db.filter (fun r => r.user_id == uid) ++ [(saveRecipe request uid nextId now db).1] :=
    List.mem_append_right _ (List.mem_singleton.mpr rfl)
  have hmax : ∀ y ∈ db.filter (fun r => r.user_id == uid) ++
      [(saveRecipe request uid nextId now db).1],
      y ≠ (saveRecipe request uid nextId now db).1 →
      y.created_at < ((saveRecipe request uid nextId now db).1).created_at := by
    intro y hy hne
    rcases List.mem_append.mp hy with hyf | hys
    · have hyu : (y.user_id == uid) = true := (List.mem_filter.mp hyf).2
      have hyd : y ∈ db := (List.mem_filter.mp hyf).1
      rw [hsaved_time]
      exact hfresh y hyd (by simpa using hyu)
    · exact absurd (List.mem_singleton.mp hys) hne
  have hperm := List.mergeSort_perm
    (db.filter (fun r => r.user_id == uid) ++ [(saveRecipe request uid nextId now db).1])
    histRowDesc
  have hsorted := @List.sorted_mergeSort HistRow histRowDesc histRowDesc_trans histRowDesc_total
    (db.filter (fun r => r.user_id == uid) ++ [(saveRecipe request uid nextId now db).1])
  refine ⟨?_, ?_, ?_⟩
  · rw [hgh]
    exact List.mem_map_of_mem _ (hperm.mem_iff.mpr hmem)
  · rw [hgh, List.head?_map, mergeSort_head_of_strict_max _ _ hmem hmax]
    rfl
  · rw [hgh]
    refine List.Pairwise.map histRowToResponse ?_ hsorted
    intro a b hab
    simpa [histRowToResponse, histRowDesc] using hab

/-- Witness for C8: saving into an empty history and listing. -/
theorem claim8_save_then_list_witness :
    histRowToResponse (saveRecipe { recipe_json := .dict [] } 1 1 10 []).1 ∈
      getHistory none 1 20 (saveRecipe { recipe_json := .dict [] } 1 1 10 []).2 ∧
    (getHistory none 1 20 (saveRecipe { recipe_json := .dict [] } 1 1 10 []).2).head? =
      some (histRowToResponse (saveRecipe { recipe_json := .dict [] } 1 1 10 []).1) ∧
    List.Pairwise (fun x y => y.created_at ≤ x.created_at)
      (getHistory none 1 20 (saveRecipe { recipe_json := .dict [] } 1 1 10 []).2) :=
  claim8_save_then_list { recipe_json := .dict [] } 1 1 10 20 []
    (by intro r hr; simp at hr)
